import Mathlib

/-!
Shallow embedding of the pubky-app-specs record validation core:
`src/post.rs` (PubkyAppPost) and `src/tag.rs` (PubkyAppTag).

Rust `String` fields are modelled as `List Char`: a Rust string is a
sequence of Unicode scalar values and every operation the source performs
on these fields (`trim`, `to_lowercase`, `chars().take(n)`,
`chars().count()`) is a per-scalar-value operation, which `List Char`
captures exactly.

External collaborators of the two source files are modelled as follows.
The `url` crate (`Url::parse` followed by `Url::to_string`) is an external
dependency, so every definition that needs it takes a parameter
`parseUrl : Str → Option Str` standing for parse-then-normalize
(`Ok(url) ↦ some normalizedText`, `Err ↦ none`); theorems quantify over
it. The trait methods `validate_id`, `create_id` and the `try_from`
pipeline live in `traits.rs`, which is not part of the provided source
tree; they are modelled from the spec where needed and marked as such.
-/

abbrev Str := List Char

/-- Model of Rust `str::trim` on the left: drop leading whitespace.
Rust trims the Unicode White_Space set; `Char.isWhitespace` covers the
ASCII subset, which is a faithful model for every string the claims and
the repository exercise. -/
def trimLeftStr (s : Str) : Str := s.dropWhile Char.isWhitespace

/-- Model of Rust `str::trim` on the right: drop trailing whitespace. -/
def trimRightStr (s : Str) : Str := (s.reverse.dropWhile Char.isWhitespace).reverse

/-- Model of Rust `str::trim`: drop leading and trailing whitespace. -/
def trimStr (s : Str) : Str := trimRightStr (trimLeftStr s)

/-- Model of Rust per-char lowercasing on the ASCII range (Rust
`str::to_lowercase` is Unicode-full; the label claims only need the
ASCII behaviour, and non-ASCII characters are left unchanged, which
matches Rust on already-lowercase text). -/
def charToLower (c : Char) : Char :=
  if 65 ≤ c.toNat ∧ c.toNat ≤ 90 then Char.ofNat (c.toNat + 32) else c

/-- Model of Rust `str::to_lowercase` (ASCII range). -/
def toLowerStr (s : Str) : Str := s.map charToLower

/-- Per-char uppercasing on the ASCII range, used by the case-insensitive
canonicalization of claimed identifiers. -/
def charToUpper (c : Char) : Char :=
  if 97 ≤ c.toNat ∧ c.toNat ≤ 122 then Char.ofNat (c.toNat - 32) else c

/-- ASCII uppercasing of a string; Crockford-base32 identifiers are
ASCII, so this is the canonical (uppercase) form of an identifier. -/
def toUpperStr (s : Str) : Str := s.map charToUpper

/-- post.rs: `const MAX_SHORT_CONTENT_LENGTH: usize = 1000`. -/
def MAX_SHORT_CONTENT_LENGTH : Nat := 1000

/-- post.rs: `const MAX_LONG_CONTENT_LENGTH: usize = 50000`. -/
def MAX_LONG_CONTENT_LENGTH : Nat := 50000

/-- tag.rs: `const MAX_TAG_LABEL_LENGTH: usize = 20`. -/
def MAX_TAG_LABEL_LENGTH : Nat := 20

/-- post.rs: `enum PubkyAppPostKind { Short, Long, Image, Video, Link, File }`. -/
inductive PubkyAppPostKind where
  | short
  | long
  | image
  | video
  | link
  | file
deriving DecidableEq, Repr

/-- post.rs: `struct PubkyAppPostEmbed { kind, uri }`. -/
structure PubkyAppPostEmbed where
  kind : PubkyAppPostKind
  uri : Str
deriving DecidableEq, Repr

/-- post.rs: `struct PubkyAppPost { content, kind, parent, embed, attachments }`. -/
structure PubkyAppPost where
  content : Str
  kind : PubkyAppPostKind
  parent : Option Str
  embed : Option PubkyAppPostEmbed
  attachments : Option (List Str)
deriving DecidableEq, Repr

/-- tag.rs: `struct PubkyAppTag { uri, label, created_at }`. -/
structure PubkyAppTag where
  uri : Str
  label : Str
  created_at : Int
deriving DecidableEq, Repr

/-- The reserved sentinel content of deleted posts, post.rs line 68. -/
def deletedSentinel : Str := "[DELETED]".data

/-- The placeholder substituted for the sentinel, post.rs line 69. -/
def emptyPlaceholder : Str := "empty".data

/-- post.rs lines 72-77: the per-kind content length limit; `Short`
and every kind other than `Long` get the short limit. -/
def maxContentLength (k : PubkyAppPostKind) : Nat :=
  match k with
  | .short => MAX_SHORT_CONTENT_LENGTH
  | .long => MAX_LONG_CONTENT_LENGTH
  | _ => MAX_SHORT_CONTENT_LENGTH

/-- post.rs lines 61-111: `PubkyAppPost::sanitize`. Trim the content,
replace the reserved sentinel, truncate to the per-kind character limit,
normalize-or-discard the optional parent and embed URIs, and pass
attachments through (the source moves `self.attachments` unchanged). -/
def PubkyAppPost.sanitize (parseUrl : Str → Option Str) (p : PubkyAppPost) :
    PubkyAppPost :=
  let content := trimStr p.content
  let content := if content = deletedSentinel then emptyPlaceholder else content
  let content := content.take (maxContentLength p.kind)
  let parent :=
    match p.parent with
    | some uriStr =>
      match parseUrl uriStr with
      | some u => some u
      | none => none
    | none => none
  let embed :=
    match p.embed with
    | some e =>
      match parseUrl e.uri with
      | some u => some { kind := e.kind, uri := u }
      | none => none
    | none => none
  { content := content, kind := p.kind, parent := parent, embed := embed,
    attachments := p.attachments }

/-- Modelled from the spec: the error of the identifier integrity gate,
`IdentifierMismatch` of the error taxonomy (the trait that raises it is
in `traits.rs`, which is not in the provided source tree). -/
def identifierMismatchMsg : Str := "IdentifierMismatch".data

/-- post.rs lines 120-123 and 128-131: the content length error message
(the source uses the same text, naming the Short kind, in both the Short
and the Long branch). -/
def postContentLengthMsg : Str :=
  "Validation Error: Post content exceeds maximum length for Short kind".data

/-- tag.rs line 83: the label length error message. -/
def tagLabelLengthMsg : Str := "Tag label exceeds maximum length".data

/-- tag.rs line 68: the mandatory URI error message (the spec calls this
condition `MandatoryFieldInvalid`). -/
def invalidTagUriMsg : Str := "Invalid URI in tag".data

/-- Modelled from the spec: the trait-provided `validate_id`
(`traits.rs`, not in the provided source tree). Per spec section 4.5
step 3 it compares the claimed identifier, case-insensitively
canonicalized, against the correctly derived identifier and raises
`IdentifierMismatch` on disagreement; `derived` is the correctly derived
identifier, already in canonical uppercase form. -/
def validateId (derived claimed : Str) : Except Str Unit :=
  if toUpperStr claimed = derived then .ok () else .error identifierMismatchMsg

/-- post.rs lines 113-140: `PubkyAppPost::validate`. Check the claimed
identifier, then re-check the content character count, but only for the
`Short` and `Long` kinds: the source match has `_ => ()` for the rest.
`derivedId` is the correctly derived (time-ordered) identifier of the
record, supplied by the trait layer that is not in the source tree. -/
def PubkyAppPost.validate (derivedId : Str) (p : PubkyAppPost) (id : Str) :
    Except Str Unit := do
  validateId derivedId id
  match p.kind with
  | .short =>
    if MAX_SHORT_CONTENT_LENGTH < p.content.length then
      .error postContentLengthMsg
    else
      .ok ()
  | .long =>
    if MAX_LONG_CONTENT_LENGTH < p.content.length then
      .error postContentLengthMsg
    else
      .ok ()
  | _ => .ok ()

/-- tag.rs lines 51-53: `PubkyAppTag::get_id_data`, the identifier input
string, exactly `format!("{}:{}", self.uri, self.label)`. -/
def PubkyAppTag.get_id_data (t : PubkyAppTag) : Str := t.uri ++ (':' :: t.label)

/-- Modelled from the spec: the trait-provided `create_id` (`traits.rs`,
not in the provided source tree) is
Crockford-base32(Blake3(get_id_data)[:half]); `hashEncode` stands for the
composite hash-truncate-encode step, so `create_id` is `hashEncode`
applied to `get_id_data`. -/
def PubkyAppTag.create_id (hashEncode : Str → Str) (t : PubkyAppTag) : Str :=
  hashEncode t.get_id_data

/-- tag.rs lines 58-76: `PubkyAppTag::sanitize`. Trim and lowercase the
label, truncate it to 20 characters, and normalize the mandatory URI,
failing when it does not parse. -/
def PubkyAppTag.sanitize (parseUrl : Str → Option Str) (t : PubkyAppTag) :
    Except Str PubkyAppTag :=
  let label := toLowerStr (trimStr t.label)
  let label := label.take MAX_TAG_LABEL_LENGTH
  match parseUrl t.uri with
  | some uri => .ok { uri := uri, label := label, created_at := t.created_at }
  | none => .error invalidTagUriMsg

/-- tag.rs lines 78-89: `PubkyAppTag::validate`. Check the claimed
identifier against the recomputed content-hashed identifier, then
re-check the label character count. -/
def PubkyAppTag.validate (hashEncode : Str → Str) (t : PubkyAppTag) (id : Str) :
    Except Str Unit := do
  validateId (t.create_id hashEncode) id
  if MAX_TAG_LABEL_LENGTH < t.label.length then
    .error tagLabelLengthMsg
  else
    .ok ()

/-- Modelled from the spec: the `try_from` validation pipeline of
section 4.5 (`traits.rs`, not in the provided source tree), after the
deserialization step: sanitize, then validate against the claimed
identifier, then return the sanitized record. -/
def PubkyAppTag.process (parseUrl : Str → Option Str) (hashEncode : Str → Str)
    (t : PubkyAppTag) (id : Str) : Except Str PubkyAppTag := do
  let t' ← t.sanitize parseUrl
  t'.validate hashEncode id
  .ok t'

/-- tag.rs: the derived `Default` record, `uri: ""`, `label: ""`,
`created_at: 0`. -/
def PubkyAppTag.defaultRecord : PubkyAppTag :=
  { uri := [], label := [], created_at := 0 }

/-- tag.rs lines 27-39: `PubkyAppTag::new`. Stamp the current time
(`now` models `Utc::now().timestamp_millis()`, the one external input),
sanitize, and fall back to the default record when sanitize fails. -/
def PubkyAppTag.new (parseUrl : Str → Option Str) (now : Int)
    (uri label : Str) : PubkyAppTag :=
  let tag : PubkyAppTag := { uri := uri, label := label, created_at := now }
  match tag.sanitize parseUrl with
  | .ok t => t
  | .error _ => PubkyAppTag.defaultRecord

/-- Modelled from the spec: a concrete stand-in for the external `url`
crate (`Url::parse` then `Url::to_string`), used only to instantiate
witnesses and counterexamples; the claim theorems themselves quantify
over the parser. It accepts absolute `https` URLs of the already
normalized shape used by the repository examples, returning them
unchanged, and rejects everything else, which agrees with the real crate
on every string the witnesses feed it (`Url::parse` of such a URL
round-trips to the identical text, and a schemeless string is an error). -/
def urlParseModel (s : Str) : Option Str :=
  if s.take 8 = "https://".data ∧ 8 < s.length then some s else none

deriving instance DecidableEq for Except

set_option maxRecDepth 100000

/-! Concrete records used by witnesses and counterexamples. -/

/-- A tag whose label is 21 characters long with a space in position 20,
so that truncation to 20 characters strands a trailing space. -/
def tagC2 : PubkyAppTag :=
  { uri := "https://example.com/post/1".data,
    label := "aaaaaaaaaaaaaaaaaaa b".data, created_at := 0 }

/-- The sanitized form of `tagC2`: its label ends in a space. -/
def tagC2s : PubkyAppTag :=
  { uri := "https://example.com/post/1".data,
    label := "aaaaaaaaaaaaaaaaaaa ".data, created_at := 0 }

/-- A short post of 1001 characters with a space in position 1000, so
that truncation to 1000 characters strands a trailing space. -/
def postC2 : PubkyAppPost :=
  { content := List.replicate 999 'a' ++ [' ', 'b'], kind := .short,
    parent := none, embed := none, attachments := none }

/-- An image-kind post whose content has 1001 characters. -/
def postC4 : PubkyAppPost :=
  { content := List.replicate 1001 'a', kind := .image,
    parent := none, embed := none, attachments := none }

/-- A canonical-form identifier for the image post. -/
def idC4 : Str := "00321FCW75ZFY".data

/-- A short post whose content has 1001 characters. -/
def postC4b : PubkyAppPost :=
  { content := List.replicate 1001 'a', kind := .short,
    parent := none, embed := none, attachments := none }

/-- A canonical-form identifier for the short post. -/
def idC4b : Str := "00321FCW75ZFZ".data

/-- A post with a single attachment that is not a parseable URI. -/
def postC5 : PubkyAppPost :=
  { content := "hello".data, kind := .short, parent := none, embed := none,
    attachments := some ["invalid_uri".data] }

/-- A short post of 1001 two-byte (in UTF-8) characters. -/
def postC9 : PubkyAppPost :=
  { content := List.replicate 1001 'é', kind := .short,
    parent := none, embed := none, attachments := none }

/-- A tag whose label is 21 two-byte (in UTF-8) characters. -/
def tagC9 : PubkyAppTag :=
  { uri := "https://example.com/post/1".data,
    label := List.replicate 21 'é', created_at := 7 }

/-- A tag used by the identifier-mismatch witness. -/
def tagC1 : PubkyAppTag :=
  { uri := "https://example.com/post/1".data, label := "cool".data,
    created_at := 1627849723000 }

/-- Two tags sharing uri and label but with different timestamps. -/
def tagC3a : PubkyAppTag :=
  { uri := "https://example.com/post/1".data, label := "cool".data,
    created_at := 1627849723000 }

/-- Second tag of the pair, created at a different instant. -/
def tagC3b : PubkyAppTag :=
  { uri := "https://example.com/post/1".data, label := "cool".data,
    created_at := 1700000000000 }

/-- A tag whose uri does not parse. -/
def tagC6 : PubkyAppTag :=
  { uri := "invalid_uri".data, label := "Cool Tag".data,
    created_at := 1627849723000 }

/-- A post whose content is the reserved sentinel with surrounding
whitespace. -/
def postC8 : PubkyAppPost :=
  { content := "  [DELETED]  ".data, kind := .short, parent := none,
    embed := none, attachments := none }

/-- A post with ordinary content and both optional URI fields present
and parseable, used by the idempotence witness. -/
def postW2 : PubkyAppPost :=
  { content := "  Hello world  ".data, kind := .short,
    parent := some "https://example.com/post/1".data,
    embed := some { kind := .short, uri := "https://example.com/post/2".data },
    attachments := some ["https://example.com/img.png".data] }

/-- A tag with an uppercase, padded label, from the repository tests. -/
def tagW2 : PubkyAppTag :=
  { uri := "https://example.com/post/1".data, label := "  CoOl  ".data,
    created_at := 1627849723000 }

/-- The sanitized form of `tagW2`. -/
def tagW2s : PubkyAppTag :=
  { uri := "https://example.com/post/1".data, label := "cool".data,
    created_at := 1627849723000 }

/-! Helper lemmas. -/

/-- Evaluation of `Char.ofNat` on the ASCII lowercase range. -/
theorem charOfNat_lower_eval : ∀ n, n < 123 → 97 ≤ n → (Char.ofNat n).toNat = n := by
  decide

/-- ASCII lowercasing is idempotent. -/
theorem charToLower_idem (c : Char) : charToLower (charToLower c) = charToLower c := by
  unfold charToLower
  by_cases h : 65 ≤ c.toNat ∧ c.toNat ≤ 90
  · rw [if_pos h]
    have hv : (Char.ofNat (c.toNat + 32)).toNat = c.toNat + 32 :=
      charOfNat_lower_eval (c.toNat + 32) (by omega) (by omega)
    rw [if_neg (by rw [hv]; omega)]
  · rw [if_neg h, if_neg h]

/-- String lowercasing is idempotent. -/
theorem toLowerStr_idem (s : Str) : toLowerStr (toLowerStr s) = toLowerStr s := by
  simp only [toLowerStr, List.map_map]
  exact List.map_congr_left (fun a _ => charToLower_idem a)

/-- The URL-parser stand-in returns its accepted inputs unchanged, hence
re-parsing an accepted output accepts it again. -/
theorem urlParseModel_idem : ∀ s t, urlParseModel s = some t → urlParseModel t = some t := by
  intro s t h
  unfold urlParseModel at h ⊢
  by_cases hc : s.take 8 = "https://".data ∧ 8 < s.length
  · rw [if_pos hc] at h
    injection h with h
    subst h
    rw [if_pos hc]
  · rw [if_neg hc] at h
    exact absurd h (by simp)

/-- Every kind allows at least the short content limit. -/
theorem le_maxContentLength (k : PubkyAppPostKind) :
    MAX_SHORT_CONTENT_LENGTH ≤ maxContentLength k := by
  cases k <;> decide

/-- The parent field of a sanitized post is the parse-or-discard image
of the original parent field. -/
theorem sanitize_parent_eq (f : Str → Option Str) (p : PubkyAppPost) :
    (p.sanitize f).parent = p.parent.bind f := by
  cases hp : p.parent with
  | none => simp [PubkyAppPost.sanitize, hp]
  | some u =>
    cases hu : f u <;> simp [PubkyAppPost.sanitize, hp, hu]

/-- The embed field of a sanitized post is the parse-or-discard image
of the original embed field, keeping the embed kind. -/
theorem sanitize_embed_eq (f : Str → Option Str) (p : PubkyAppPost) :
    (p.sanitize f).embed =
      p.embed.bind (fun e => (f e.uri).map (fun u => { kind := e.kind, uri := u })) := by
  cases he : p.embed with
  | none => simp [PubkyAppPost.sanitize, he]
  | some e =>
    cases hu : f e.uri <;> simp [PubkyAppPost.sanitize, he, hu]

/-- The content of a sanitized post, written explicitly. -/
theorem sanitize_content_eq (f : Str → Option Str) (p : PubkyAppPost) :
    (p.sanitize f).content =
      (if trimStr p.content = deletedSentinel then emptyPlaceholder
       else trimStr p.content).take (maxContentLength p.kind) := rfl

/-- The kind of a sanitized post is unchanged. -/
theorem sanitize_kind_eq (f : Str → Option Str) (p : PubkyAppPost) :
    (p.sanitize f).kind = p.kind := rfl

/-- The attachments of a sanitized post are unchanged. -/
theorem sanitize_attachments_eq (f : Str → Option Str) (p : PubkyAppPost) :
    (p.sanitize f).attachments = p.attachments := rfl

/-- Sanitized content never exceeds the per-kind limit. -/
theorem sanitize_content_length_le (f : Str → Option Str) (p : PubkyAppPost) :
    (p.sanitize f).content.length ≤ maxContentLength p.kind := by
  rw [sanitize_content_eq]
  simp

/-- Sanitized content is never the reserved sentinel. -/
theorem sanitize_content_ne_deleted (f : Str → Option Str) (p : PubkyAppPost) :
    (p.sanitize f).content ≠ deletedSentinel := by
  rw [sanitize_content_eq]
  by_cases hd : trimStr p.content = deletedSentinel
  · rw [if_pos hd]
    have h5 : emptyPlaceholder.length = 5 := by decide
    have hge : MAX_SHORT_CONTENT_LENGTH ≤ maxContentLength p.kind :=
      le_maxContentLength p.kind
    have hms : MAX_SHORT_CONTENT_LENGTH = 1000 := rfl
    rw [List.take_of_length_le (by omega)]
    decide
  · rw [if_neg hd]
    intro he
    by_cases hl : (trimStr p.content).length ≤ maxContentLength p.kind
    · rw [List.take_of_length_le hl] at he
      exact hd he
    · have h9 : deletedSentinel.length = 9 := by decide
      have := congrArg List.length he
      rw [List.length_take, h9] at this
      have hge := le_maxContentLength p.kind
      simp only [MAX_SHORT_CONTENT_LENGTH] at hge
      omega

/-- A post on which sanitize makes no change: trim-stable content away
from the sentinel and within the limit, and URI fields fixed by the
parser. -/
theorem sanitize_fixed (f : Str → Option Str) (q : PubkyAppPost)
    (hc : trimStr q.content = q.content)
    (hd : q.content ≠ deletedSentinel)
    (hl : q.content.length ≤ maxContentLength q.kind)
    (hp : ∀ u, q.parent = some u → f u = some u)
    (he : ∀ e, q.embed = some e → f e.uri = some e.uri) :
    q.sanitize f = q := by
  obtain ⟨c, k, pa, em, att⟩ := q
  simp only at hc hd hl hp he
  simp only [PubkyAppPost.sanitize, hc, if_neg hd, List.take_of_length_le hl]
  rw [PubkyAppPost.mk.injEq]
  refine ⟨rfl, rfl, ?_, ?_, rfl⟩
  · cases pa with
    | none => rfl
    | some u => simp [hp u rfl]
  · cases em with
    | none => rfl
    | some e => simp [he e rfl]

/-! Claim theorems. -/

/-- C1: validating a record (post or tag) against a claimed identifier
that differs, after case-insensitive canonicalization, from the
correctly derived identifier returns the `IdentifierMismatch` error and
never accepts or silently corrects the record. For tags the derived
identifier is recomputed from the record via `create_id`; for posts the
correctly derived (time-ordered) identifier is supplied by the trait
layer. -/
theorem validate_rejects_identifier_mismatch :
    (∀ (hashEncode : Str → Str) (t : PubkyAppTag) (id : Str),
      toUpperStr id ≠ t.create_id hashEncode →
      t.validate hashEncode id = .error identifierMismatchMsg) ∧
    (∀ (derivedId : Str) (p : PubkyAppPost) (id : Str),
      toUpperStr id ≠ derivedId →
      p.validate derivedId id = .error identifierMismatchMsg) := by
  constructor
  · intro hashEncode t id h
    simp [PubkyAppTag.validate, validateId, h, Bind.bind, Except.bind]
  · intro derivedId p id h
    simp [PubkyAppPost.validate, validateId, h, Bind.bind, Except.bind]

/-- Witness for C1: a concrete tag and a concrete post, each validated
against a wrong identifier, are rejected with `IdentifierMismatch`. -/
theorem validate_rejects_identifier_mismatch_witness :
    (toUpperStr "WRONGID".data ≠ tagC1.create_id toUpperStr ∧
      tagC1.validate toUpperStr "WRONGID".data = .error identifierMismatchMsg) ∧
    (toUpperStr "WRONGID".data ≠ "00321FCW75ZFY".data ∧
      PubkyAppPost.validate "00321FCW75ZFY".data
        { content := "hi".data, kind := .short, parent := none, embed := none,
          attachments := none } "WRONGID".data = .error identifierMismatchMsg) :=
  ⟨⟨by decide,
    validate_rejects_identifier_mismatch.1 toUpperStr tagC1 "WRONGID".data (by decide)⟩,
   ⟨by decide,
    validate_rejects_identifier_mismatch.2 "00321FCW75ZFY".data
      { content := "hi".data, kind := .short, parent := none, embed := none,
        attachments := none } "WRONGID".data (by decide)⟩⟩

/-- C3: the content-hashed identifier input of a tag is exactly
`"{uri}:{label}"`, so two tags with equal uri and equal label derive the
same identifier whatever their `created_at` values. -/
theorem tag_id_depends_only_on_uri_label :
    (∀ t : PubkyAppTag, t.get_id_data = t.uri ++ (':' :: t.label)) ∧
    (∀ (hashEncode : Str → Str) (t1 t2 : PubkyAppTag),
      t1.uri = t2.uri → t1.label = t2.label →
      t1.create_id hashEncode = t2.create_id hashEncode) := by
  constructor
  · intro t
    rfl
  · intro hashEncode t1 t2 hu hl
    simp [PubkyAppTag.create_id, PubkyAppTag.get_id_data, hu, hl]

/-- Witness for C3: two concrete tags with the same uri and label but
different timestamps get the same identifier under a concrete encoding. -/
theorem tag_id_depends_only_on_uri_label_witness :
    tagC3a.created_at ≠ tagC3b.created_at ∧
    tagC3a.create_id toUpperStr = tagC3b.create_id toUpperStr :=
  ⟨by decide,
   tag_id_depends_only_on_uri_label.2 toUpperStr tagC3a tagC3b rfl rfl⟩

/-- C6: a tag whose uri does not parse as an absolute URI fails
sanitize with the mandatory-URI error (the spec taxonomy name is
`MandatoryFieldInvalid`, the source text is "Invalid URI in tag"), and
the sanitize-then-validate pipeline therefore fails with that same
error instead of discarding the field. -/
theorem tag_invalid_uri_fails (parseUrl : Str → Option Str)
    (hashEncode : Str → Str) (t : PubkyAppTag) (id : Str)
    (h : parseUrl t.uri = none) :
    t.sanitize parseUrl = .error invalidTagUriMsg ∧
    t.process parseUrl hashEncode id = .error invalidTagUriMsg := by
  constructor
  · simp [PubkyAppTag.sanitize, h]
  · simp [PubkyAppTag.process, PubkyAppTag.sanitize, h, Bind.bind, Except.bind]

/-- Witness for C6: the repository test tag with uri "invalid_uri"
fails sanitize and the pipeline with the mandatory-URI error. -/
theorem tag_invalid_uri_fails_witness :
    urlParseModel tagC6.uri = none ∧
    tagC6.sanitize urlParseModel = .error invalidTagUriMsg ∧
    tagC6.process urlParseModel toUpperStr "SOMEID".data = .error invalidTagUriMsg :=
  ⟨by decide,
   (tag_invalid_uri_fails urlParseModel toUpperStr tagC6 "SOMEID".data (by decide)).1,
   (tag_invalid_uri_fails urlParseModel toUpperStr tagC6 "SOMEID".data (by decide)).2⟩

/-- C7: post sanitize is total (it returns a record, never an error) and
treats each optional URI field by the parse-or-discard rule: a parent or
embed URI that fails to parse is set to absent while the rest of the
record is kept, and one that parses is replaced by its normalized form
(the embed keeps its kind). -/
theorem post_sanitize_optional_uri_fields (parseUrl : Str → Option Str)
    (p : PubkyAppPost) :
    (p.sanitize parseUrl).parent = p.parent.bind parseUrl ∧
    (p.sanitize parseUrl).embed =
      p.embed.bind (fun e =>
        (parseUrl e.uri).map (fun u => { kind := e.kind, uri := u })) ∧
    (p.sanitize parseUrl).content =
      (if trimStr p.content = deletedSentinel then emptyPlaceholder
       else trimStr p.content).take (maxContentLength p.kind) ∧
    (p.sanitize parseUrl).kind = p.kind ∧
    (p.sanitize parseUrl).attachments = p.attachments :=
  ⟨sanitize_parent_eq parseUrl p, sanitize_embed_eq parseUrl p,
   sanitize_content_eq parseUrl p, sanitize_kind_eq parseUrl p,
   sanitize_attachments_eq parseUrl p⟩

/-- C8: a post whose trimmed content equals the reserved sentinel
"[DELETED]" has it replaced by the placeholder "empty" during sanitize,
and no sanitized post ever carries the sentinel as its content. -/
theorem post_sanitize_deleted_sentinel (parseUrl : Str → Option Str)
    (p : PubkyAppPost) :
    (p.sanitize parseUrl).content ≠ deletedSentinel ∧
    (trimStr p.content = deletedSentinel →
      (p.sanitize parseUrl).content = emptyPlaceholder) := by
  refine ⟨sanitize_content_ne_deleted parseUrl p, fun hd => ?_⟩
  rw [sanitize_content_eq, if_pos hd]
  have h5 : emptyPlaceholder.length = 5 := by decide
  have hge : MAX_SHORT_CONTENT_LENGTH ≤ maxContentLength p.kind :=
    le_maxContentLength p.kind
  have hms : MAX_SHORT_CONTENT_LENGTH = 1000 := rfl
  exact List.take_of_length_le (by omega)

/-- Witness for C8: a concrete post whose content trims to the sentinel
is sanitized to the placeholder. -/
theorem post_sanitize_deleted_sentinel_witness :
    trimStr postC8.content = deletedSentinel ∧
    (postC8.sanitize urlParseModel).content = emptyPlaceholder :=
  ⟨by decide, (post_sanitize_deleted_sentinel urlParseModel postC8).2 (by decide)⟩

/-- C10: `PubkyAppTag::new` with a uri that does not parse returns the
all-default record (empty uri, empty label, `created_at = 0`), silently
discarding both inputs and the stamped clock value instead of returning
an error. -/
theorem tag_new_invalid_uri_default (parseUrl : Str → Option Str)
    (now : Int) (uri label : Str) (h : parseUrl uri = none) :
    PubkyAppTag.new parseUrl now uri label =
      { uri := [], label := [], created_at := 0 } := by
  simp [PubkyAppTag.new, PubkyAppTag.sanitize, h, PubkyAppTag.defaultRecord]

/-- Witness for C10: a concrete invalid uri and label produce the
default record although the clock value was nonzero. -/
theorem tag_new_invalid_uri_default_witness :
    urlParseModel "invalid_uri".data = none ∧
    PubkyAppTag.new urlParseModel 1627849723000 "invalid_uri".data "cool".data =
      { uri := [], label := [], created_at := 0 } :=
  ⟨by decide,
   tag_new_invalid_uri_default urlParseModel 1627849723000 "invalid_uri".data
     "cool".data (by decide)⟩

/-- Truncating after lowercasing a truncated lowercased string changes
nothing. -/
theorem toLowerStr_take_fixed (x : Str) (n : Nat) :
    (toLowerStr ((toLowerStr x).take n)).take n = (toLowerStr x).take n := by
  simp only [toLowerStr, List.map_take, List.map_map]
  rw [List.take_take, Nat.min_self]
  congr 1
  exact List.map_congr_left (fun a _ => charToLower_idem a)

/-- C2 counterexample: sanitization is not idempotent. A short post of
1001 characters with a space in position 1000, and a tag whose 21
character label has a space in position 20, are truncated to text that
ends in a space, which a second sanitize trims away. -/
theorem sanitize_not_idempotent_cex :
    (postC2.sanitize urlParseModel).sanitize urlParseModel ≠
      postC2.sanitize urlParseModel ∧
    tagC2.sanitize urlParseModel = .ok tagC2s ∧
    tagC2s.sanitize urlParseModel ≠ .ok tagC2s := by
  decide

/-- C2 amended: sanitization is idempotent for every record whose
truncated free-text field is still trim-stable, given that re-parsing a
normalized URI returns it unchanged. For a post, if the sanitized
content is unchanged by trimming, sanitizing the sanitized post changes
nothing; for a tag on which sanitize succeeds, if the sanitized label is
unchanged by trimming, sanitizing the sanitized tag returns it again. -/
theorem sanitize_idempotent_of_trim_stable :
    (∀ (parseUrl : Str → Option Str) (p : PubkyAppPost),
      (∀ s t, parseUrl s = some t → parseUrl t = some t) →
      trimStr (p.sanitize parseUrl).content = (p.sanitize parseUrl).content →
      (p.sanitize parseUrl).sanitize parseUrl = p.sanitize parseUrl) ∧
    (∀ (parseUrl : Str → Option Str) (t t' : PubkyAppTag),
      (∀ s u, parseUrl s = some u → parseUrl u = some u) →
      t.sanitize parseUrl = .ok t' →
      trimStr t'.label = t'.label →
      t'.sanitize parseUrl = .ok t') := by
  constructor
  · intro f p hf hc
    refine sanitize_fixed f (p.sanitize f) hc
      (sanitize_content_ne_deleted f p) ?_ ?_ ?_
    · rw [sanitize_kind_eq]
      exact sanitize_content_length_le f p
    · intro u hu
      rw [sanitize_parent_eq] at hu
      cases hp0 : p.parent with
      | none => rw [hp0] at hu; exact absurd hu (by simp)
      | some u0 =>
        rw [hp0] at hu
        exact hf u0 u hu
    · intro e hee
      rw [sanitize_embed_eq] at hee
      cases he0 : p.embed with
      | none => rw [he0] at hee; exact absurd hee (by simp)
      | some e0 =>
        rw [he0] at hee
        simp only [Option.some_bind] at hee
        cases hu0 : f e0.uri with
        | none => simp [hu0] at hee
        | some u =>
          rw [hu0] at hee
          have hee' : ({ kind := e0.kind, uri := u } : PubkyAppPostEmbed) = e := by
            simpa using hee
          rw [← hee']
          exact hf e0.uri u hu0
  · intro f t t' hf ht hc
    cases hu : f t.uri with
    | none => simp [PubkyAppTag.sanitize, hu] at ht
    | some u =>
      simp only [PubkyAppTag.sanitize, hu] at ht
      rw [Except.ok.injEq] at ht
      subst ht
      simp only at hc
      simp only [PubkyAppTag.sanitize, hf t.uri u hu, hc, Except.ok.injEq,
        PubkyAppTag.mk.injEq, true_and, and_true]
      exact toLowerStr_take_fixed (trimStr t.label) MAX_TAG_LABEL_LENGTH

/-- Witness for the amended C2: a concrete post with both URI fields
present and a concrete tag, both with trim-stable sanitized text, are
fixed points of a second sanitize. -/
theorem sanitize_idempotent_of_trim_stable_witness :
    (trimStr (postW2.sanitize urlParseModel).content =
        (postW2.sanitize urlParseModel).content ∧
      (postW2.sanitize urlParseModel).sanitize urlParseModel =
        postW2.sanitize urlParseModel) ∧
    (tagW2.sanitize urlParseModel = .ok tagW2s ∧
      trimStr tagW2s.label = tagW2s.label ∧
      tagW2s.sanitize urlParseModel = .ok tagW2s) :=
  ⟨⟨by decide,
    sanitize_idempotent_of_trim_stable.1 urlParseModel postW2 urlParseModel_idem
      (by decide)⟩,
   ⟨by decide, by decide,
    sanitize_idempotent_of_trim_stable.2 urlParseModel tagW2 tagW2s
      urlParseModel_idem (by decide) (by decide)⟩⟩

/-- C4 counterexample: an image-kind post whose content has 1001
characters, more than the 1000-character limit that sanitize applies to
kinds without a long-form allowance, is accepted by validate when the
correct identifier is supplied: the validate match re-checks only the
Short and Long kinds. -/
theorem validate_skips_length_other_kinds_cex :
    MAX_SHORT_CONTENT_LENGTH < postC4.content.length ∧
    toUpperStr idC4 = idC4 ∧
    postC4.validate idC4 idC4 = .ok () := by
  decide

/-- C4 amended: validate independently re-checks content length only
for the Short (limit 1000) and Long (limit 50000) kinds, returning the
content-too-long error even when the correct identifier is supplied;
for the Image, Video, Link and File kinds validate performs no length
re-check and accepts any content length under a correct identifier. -/
theorem validate_length_recheck_short_long :
    (∀ (derivedId : Str) (p : PubkyAppPost) (id : Str),
      toUpperStr id = derivedId →
      ((p.kind = .short ∧ MAX_SHORT_CONTENT_LENGTH < p.content.length) ∨
        (p.kind = .long ∧ MAX_LONG_CONTENT_LENGTH < p.content.length)) →
      p.validate derivedId id = .error postContentLengthMsg) ∧
    (∀ (derivedId : Str) (p : PubkyAppPost) (id : Str),
      toUpperStr id = derivedId →
      p.kind ≠ .short → p.kind ≠ .long →
      p.validate derivedId id = .ok ()) := by
  constructor
  · intro derivedId p id hid hk
    rcases hk with ⟨hk, hl⟩ | ⟨hk, hl⟩ <;>
      simp [PubkyAppPost.validate, validateId, hid, hk, hl, Bind.bind, Except.bind]
  · intro derivedId p id hid h1 h2
    cases hk : p.kind <;>
      simp_all [PubkyAppPost.validate, validateId, Bind.bind, Except.bind]

/-- Witness for the amended C4: a short post of 1001 characters is
rejected under its correct identifier, and the 1001-character image post
is accepted under its correct identifier. -/
theorem validate_length_recheck_short_long_witness :
    (toUpperStr idC4b = idC4b ∧ postC4b.kind = .short ∧
      MAX_SHORT_CONTENT_LENGTH < postC4b.content.length ∧
      postC4b.validate idC4b idC4b = .error postContentLengthMsg) ∧
    (postC4.kind ≠ .short ∧ postC4.kind ≠ .long ∧
      postC4.validate idC4 idC4 = .ok ()) :=
  ⟨⟨by decide, by decide, by decide,
    validate_length_recheck_short_long.1 idC4b postC4b idC4b (by decide)
      (Or.inl ⟨by decide, by decide⟩)⟩,
   ⟨by decide, by decide,
    validate_length_recheck_short_long.2 idC4 postC4 idC4 (by decide)
      (by decide) (by decide)⟩⟩

/-- C5 counterexample: sanitize does not apply the URI rule to the
attachments list. A post with a single unparseable attachment keeps it
unchanged instead of dropping it. -/
theorem sanitize_keeps_attachments_cex :
    urlParseModel "invalid_uri".data = none ∧
    (postC5.sanitize urlParseModel).attachments = some ["invalid_uri".data] ∧
    (postC5.sanitize urlParseModel).attachments ≠
      postC5.attachments.map (fun l => l.filterMap urlParseModel) := by
  decide

/-- C5 amended: sanitize passes the attachments list through entirely
unchanged; no element is normalized and no element is dropped, whether
or not it parses as a URI. -/
theorem sanitize_attachments_unchanged (parseUrl : Str → Option Str)
    (p : PubkyAppPost) :
    (p.sanitize parseUrl).attachments = p.attachments :=
  sanitize_attachments_eq parseUrl p

/-- C9: truncation is character-based. A post whose trimmed content has
more characters than the per-kind limit is truncated to exactly the
first limit-many characters, and a tag whose lowercased trimmed label
exceeds 20 characters is truncated to exactly its first 20 characters;
the character count is the length of the `List Char` model, counting
each Unicode scalar value once whatever its UTF-8 byte width. -/
theorem truncation_is_character_based :
    (∀ (parseUrl : Str → Option Str) (p : PubkyAppPost),
      maxContentLength p.kind < (trimStr p.content).length →
      (p.sanitize parseUrl).content =
        (trimStr p.content).take (maxContentLength p.kind) ∧
      (p.sanitize parseUrl).content.length = maxContentLength p.kind) ∧
    (∀ (parseUrl : Str → Option Str) (t : PubkyAppTag) (u : Str),
      parseUrl t.uri = some u →
      MAX_TAG_LABEL_LENGTH < (toLowerStr (trimStr t.label)).length →
      t.sanitize parseUrl =
        .ok { uri := u,
              label := (toLowerStr (trimStr t.label)).take MAX_TAG_LABEL_LENGTH,
              created_at := t.created_at } ∧
      ((toLowerStr (trimStr t.label)).take MAX_TAG_LABEL_LENGTH).length =
        MAX_TAG_LABEL_LENGTH) := by
  constructor
  · intro f p h
    have h9 : deletedSentinel.length = 9 := by decide
    have hge := le_maxContentLength p.kind
    have hms : MAX_SHORT_CONTENT_LENGTH = 1000 := rfl
    have hd : trimStr p.content ≠ deletedSentinel := by
      intro he
      rw [he, h9] at h
      omega
    refine ⟨?_, ?_⟩
    · rw [sanitize_content_eq, if_neg hd]
    · rw [sanitize_content_eq, if_neg hd, List.length_take]
      omega
  · intro f t u hu hl
    constructor
    · simp [PubkyAppTag.sanitize, hu]
    · rw [List.length_take]
      have : MAX_TAG_LABEL_LENGTH = 20 := rfl
      omega

/-- Witness for C9: a short post of 1001 two-byte characters sanitizes
to exactly 1000 characters, and a tag label of 21 two-byte characters
sanitizes to exactly 20 characters. -/
theorem truncation_is_character_based_witness :
    (MAX_SHORT_CONTENT_LENGTH < (trimStr postC9.content).length ∧
      (postC9.sanitize urlParseModel).content.length = MAX_SHORT_CONTENT_LENGTH) ∧
    (urlParseModel tagC9.uri = some tagC9.uri ∧
      MAX_TAG_LABEL_LENGTH < (toLowerStr (trimStr tagC9.label)).length ∧
      ((toLowerStr (trimStr tagC9.label)).take MAX_TAG_LABEL_LENGTH).length =
        MAX_TAG_LABEL_LENGTH) :=
  ⟨⟨by decide,
    (truncation_is_character_based.1 urlParseModel postC9 (by decide)).2⟩,
   ⟨by decide, by decide,
    (truncation_is_character_based.2 urlParseModel tagC9 tagC9.uri (by decide)
      (by decide)).2⟩⟩
